import Mathlib

/-!
Verification model of the industry-themed-terminal-panel repository.

The repository is a React terminal-panel component (src/panels/TerminalPanel.tsx),
a type-extension module with context helpers (types.ts), a Storybook mock backend
(src/panels/TerminalPanel.stories.tsx) and a mock event emitter (mocks/panelContext.tsx).
This file gives a shallow embedding of those pieces:

* the mount effect and its cleanup closure, with React's closure-capture semantics
  made explicit (the cleanup installed by an effect sees the state values of the
  render in which the effect ran, not the latest ones);
* the subscription effect's event handlers and the auto-scroll debounce timer,
  as a step machine over explicit timer bookkeeping;
* the user-input and resize forwarding handlers;
* the getTerminalDirectory scope helper;
* the mock backend command interpreter and the mock event emitter registry.

Machine integers do not occur; times are modelled as natural-number milliseconds.
-/

namespace TermPanel

/-- Calls issued by the panel to the host through the actions API. -/
inductive HostCall where
  | createSession (cwd : Option String)
  | destroySession (id : String)
  | writeToTerminal (id : String) (data : String)
  | resizeTerminal (id : String) (cols rows : Int)
  deriving Repr, DecidableEq

/-! ### Mount effect (TerminalPanel.tsx lines 43-76)

The effect has an empty dependency array, so it runs exactly once, right after the
first render, when the useState value sessionId is still null.  The cleanup closure
it returns captures that value; setSessionId later does not re-run the effect, so
the installed cleanup still holds the captured value when the panel unmounts. -/

/-- Body of the mount-effect cleanup (lines 68-72): destroy the session only when
the captured sessionId is non-null and destroyTerminalSession is provided. -/
def mountCleanup (capturedSessionId : Option String) (hasDestroy : Bool) : List HostCall :=
  match capturedSessionId with
  | some id => if hasDestroy then [HostCall.destroySession id] else []
  | none => []

/-- Lifecycle happenings relevant to the mount effect. -/
inductive LifeEvent where
  | mount
  | sessionResolved (id : String)
  | unmount
  deriving Repr, DecidableEq

/-- React-visible state for the mount effect: the sessionId state variable and the
sessionId value captured by the currently installed cleanup closure (none while no
cleanup is installed). -/
structure MountState where
  sessionId : Option String
  installedCleanup : Option (Option String)
  deriving Repr, DecidableEq

/-- State at the first render: sessionId starts as null, no cleanup installed. -/
def initialMountState : MountState :=
  { sessionId := none, installedCleanup := none }

/-- One lifecycle step.  On mount the effect runs: it calls createTerminalSession
and installs a cleanup that captures the current sessionId value.  When the
returned promise resolves, setSessionId updates the state but, the dependency
array being empty, the effect does not re-run and the installed cleanup is not
replaced.  On unmount React invokes the installed cleanup. -/
def lifeStep (hasDestroy : Bool) (cwd : Option String) (s : MountState) :
    LifeEvent → MountState × List HostCall
  | .mount =>
      ({ s with installedCleanup := some s.sessionId }, [HostCall.createSession cwd])
  | .sessionResolved id =>
      ({ s with sessionId := some id }, [])
  | .unmount =>
      ({ s with installedCleanup := none },
        match s.installedCleanup with
        | some captured => mountCleanup captured hasDestroy
        | none => [])

/-- Run a list of lifecycle events, accumulating the host calls. -/
def lifeRun (hasDestroy : Bool) (cwd : Option String) :
    MountState → List LifeEvent → MountState × List HostCall
  | s, [] => (s, [])
  | s, e :: es =>
      let r1 := lifeStep hasDestroy cwd s e
      let r2 := lifeRun hasDestroy cwd r1.1 es
      (r2.1, r1.2 ++ r2.2)

/-! ### Input and resize forwarding (TerminalPanel.tsx lines 158-170) -/

/-- handleTerminalData: forward user input to the host when a session id is set
and writeToTerminal is provided. -/
def handleTerminalData (sessionId : Option String) (hasWrite : Bool) (data : String) :
    List HostCall :=
  match sessionId with
  | some id => if hasWrite then [HostCall.writeToTerminal id data] else []
  | none => []

/-- handleTerminalResize: forward a resize to the host when a session id is set
and resizeTerminal is provided. -/
def handleTerminalResize (sessionId : Option String) (hasResize : Bool) (cols rows : Int) :
    List HostCall :=
  match sessionId with
  | some id => if hasResize then [HostCall.resizeTerminal id cols rows] else []
  | none => []

/-! ### Directory scope helper (types.ts lines 132-164) -/

/-- Repository or workspace metadata as used by the path helpers. -/
structure RepoInfo where
  name : String
  path : String
  deriving Repr, DecidableEq

/-- The context.currentScope fields the helpers read. -/
structure CurrentScope where
  repository : Option RepoInfo
  workspace : Option RepoInfo
  deriving Repr, DecidableEq

/-- getRepositoryPath: context.currentScope.repository?.path ?? null. -/
def getRepositoryPath (scope : CurrentScope) : Option String :=
  scope.repository.map (fun r => r.path)

/-- getWorkspacePath: context.currentScope.workspace?.path ?? null. -/
def getWorkspacePath (scope : CurrentScope) : Option String :=
  scope.workspace.map (fun w => w.path)

/-- getTerminalDirectory: switch on terminalScope with cases for workspace and
repository and a default branch identical to the repository branch.  The scope is
modelled as a raw string so that the default branch stays visible. -/
def getTerminalDirectory (scope : CurrentScope) (terminalScope : String) : Option String :=
  if terminalScope = "workspace" then
    getWorkspacePath scope
  else if terminalScope = "repository" then
    (getRepositoryPath scope).orElse (fun _ => getWorkspacePath scope)
  else
    (getRepositoryPath scope).orElse (fun _ => getWorkspacePath scope)

/-- The cwd passed to createTerminalSession (TerminalPanel.tsx line 54):
the JS expression terminalDirectory-or-undefined maps the falsy values null and
the empty string to undefined. -/
def initCwd (dir : Option String) : Option String :=
  match dir with
  | some s => if s = "" then none else some s
  | none => none

/-! ### Theorems for claims C1, C3, C9 -/

/-- Claim C1 (code bug): in the run mount, session resolved, unmount, the panel
never calls destroyTerminalSession, whatever id the host returned and although
destroyTerminalSession is provided.  The cleanup installed at mount captured the
initial null sessionId, and the empty dependency array means it is never
replaced, so the guard in the cleanup always fails.  This contradicts the
component's own doc comment (lines 18-21): on unmount it is supposed to destroy
the session. -/
theorem unmount_never_destroys_session (id : String) (cwd : Option String) :
    (lifeRun true cwd initialMountState
        [LifeEvent.mount, LifeEvent.sessionResolved id, LifeEvent.unmount]).2
      = [HostCall.createSession cwd] := by
  rfl

/-- Claim C3: with a session id set and the action provided, user input is
forwarded verbatim as writeToTerminal and a resize as resizeTerminal with the
reported dimensions; with no session id or an absent action no host call is
made. -/
theorem input_resize_forwarding (id data : String) (cols rows : Int) (b : Bool) :
    handleTerminalData (some id) true data = [HostCall.writeToTerminal id data] ∧
    handleTerminalResize (some id) true cols rows = [HostCall.resizeTerminal id cols rows] ∧
    handleTerminalData none b data = [] ∧
    handleTerminalResize none b cols rows = [] ∧
    handleTerminalData (some id) false data = [] ∧
    handleTerminalResize (some id) false cols rows = [] := by
  refine ⟨rfl, rfl, ?_, ?_, rfl, rfl⟩ <;> cases b <;> rfl

/-- Claim C9: getTerminalDirectory falls back asymmetrically.  For any scope
string other than workspace it returns the repository path when present,
otherwise the workspace path, otherwise none; for the workspace scope it returns
the workspace path or none, never falling back to the repository path.  A null
directory yields an undefined cwd for createTerminalSession. -/
theorem terminal_directory_fallback (repo ws : Option RepoInfo) (ts : String)
    (h : ts ≠ "workspace") :
    (∀ r, repo = some r →
      getTerminalDirectory ⟨repo, ws⟩ ts = some r.path) ∧
    (repo = none → ∀ w, ws = some w →
      getTerminalDirectory ⟨repo, ws⟩ ts = some w.path) ∧
    (repo = none → ws = none →
      getTerminalDirectory ⟨repo, ws⟩ ts = none) ∧
    (∀ w, ws = some w →
      getTerminalDirectory ⟨repo, ws⟩ "workspace" = some w.path) ∧
    (ws = none → getTerminalDirectory ⟨repo, ws⟩ "workspace" = none) ∧
    initCwd none = none := by
  refine ⟨?_, ?_, ?_, ?_, ?_, rfl⟩
  · rintro r rfl
    simp [getTerminalDirectory, getRepositoryPath, getWorkspacePath, h, Option.orElse]
  · rintro rfl w rfl
    simp [getTerminalDirectory, getRepositoryPath, getWorkspacePath, h, Option.orElse]
  · rintro rfl rfl
    simp [getTerminalDirectory, getRepositoryPath, getWorkspacePath, h, Option.orElse]
  · rintro w rfl
    simp [getTerminalDirectory, getWorkspacePath]
  · rintro rfl
    simp [getTerminalDirectory, getWorkspacePath]

/-- Witness for claim C9 at a concrete context and the repository scope. -/
theorem terminal_directory_fallback_witness :
    ("repository" : String) ≠ "workspace" ∧
    getTerminalDirectory ⟨some ⟨"my-project", "/Users/developer/my-project"⟩, none⟩
        "repository" = some "/Users/developer/my-project" := by
  refine ⟨by decide, ?_⟩
  exact (terminal_directory_fallback
    (some ⟨"my-project", "/Users/developer/my-project"⟩) none "repository"
    (by decide)).1 ⟨"my-project", "/Users/developer/my-project"⟩ rfl

/-! ### Subscription effect (TerminalPanel.tsx lines 79-156)

Once sessionId is non-null the effect subscribes to terminal:data and
terminal:exit and keeps three closure-local variables: lastWriteTime,
cursorMovedToHome and autoScrollTimeout.  The auto-scroll timeout callback
shares those variables with the data handler.  Times are natural-number
milliseconds; JS timers are modelled as a list of pending (id, fireTime)
pairs with a fresh-id counter, and a timer only fires while still pending. -/

/-- Payload of a terminal:data event. -/
structure DataPayload where
  sessionId : String
  data : String
  deriving Repr, DecidableEq

/-- Payload of a terminal:exit event. -/
structure ExitPayload where
  sessionId : String
  exitCode : Int
  deriving Repr, DecidableEq

/-- JS String.prototype.includes on character lists: pat occurs contiguously. -/
def charListHasSeq (pat : List Char) : List Char → Bool
  | [] => pat.isEmpty
  | c :: cs => pat.isPrefixOf (c :: cs) || charListHasSeq pat cs

/-- JS data.includes of the cursor-home escape sequence (line 98). -/
def containsCursorHome (s : String) : Bool :=
  charListHasSeq "\x1b[H".data s.data

/-- Closure-local state of the subscription effect (lines 83-85), together with
the sessionId value the effect closed over (the effect re-runs whenever
sessionId changes, so the captured value is the current one). -/
structure SubState where
  sessionId : String
  lastWriteTime : Nat
  cursorMovedToHome : Bool
  autoScrollTimeout : Option Nat
  deriving Repr, DecidableEq

/-- Pending JS timers: (timer id, scheduled fire time), plus a counter from
which fresh timer ids are drawn. -/
structure TimerSys where
  active : List (Nat × Nat)
  nextId : Nat
  deriving Repr, DecidableEq

/-- Closure-local state right after the effect body ran (lines 83-85). -/
def initSubState (sid : String) : SubState :=
  { sessionId := sid, lastWriteTime := 0, cursorMovedToHome := false,
    autoScrollTimeout := none }

/-- No pending timers initially. -/
def initTimerSys : TimerSys :=
  { active := [], nextId := 0 }

/-- clearTimeout: remove the pending timer with the given id, if any. -/
def clearTimeoutJs (ts : TimerSys) (h : Nat) : TimerSys :=
  { ts with active := ts.active.filter (fun e => e.1 ≠ h) }

/-- setTimeout with a 100 ms delay issued at a given time: register a fresh
timer id with its fire time and return the id. -/
def setTimeoutJs (ts : TimerSys) (fireTime : Nat) : TimerSys × Nat :=
  ({ active := ts.active ++ [(ts.nextId, fireTime)], nextId := ts.nextId + 1 }, ts.nextId)

/-- Observable effects of the subscription handlers: writes to the terminal
widget via terminalRef.current.write, and setError state updates. -/
inductive SubOutput where
  | termWrite (data : String)
  | setError (msg : String)
  deriving Repr, DecidableEq

/-- The terminal:data handler (lines 90-136).  Guard: the payload exists, its
sessionId matches and terminalRef.current is non-null.  On a cursor-home
sequence the detection flag is raised; the data is written to the widget; while
the flag is up any existing auto-scroll timeout is cleared and a new 100 ms one
is scheduled; lastWriteTime is updated to the current time. -/
def dataStep (refPresent : Bool) (st : SubState) (ts : TimerSys) (now : Nat)
    (payload : Option DataPayload) : SubState × TimerSys × List SubOutput :=
  match payload with
  | none => (st, ts, [])
  | some p =>
    if p.sessionId = st.sessionId ∧ refPresent = true then
      let data := p.data
      let moved := if containsCursorHome data then true else st.cursorMovedToHome
      if moved then
        let ts1 :=
          match st.autoScrollTimeout with
          | some h => clearTimeoutJs ts h
          | none => ts
        let r := setTimeoutJs ts1 (now + 100)
        ({ st with
            cursorMovedToHome := true, lastWriteTime := now,
            autoScrollTimeout := some r.2 },
          r.1, [SubOutput.termWrite data])
      else
        ({ st with lastWriteTime := now }, ts, [SubOutput.termWrite data])
    else (st, ts, [])

/-- The auto-scroll timeout callback (lines 114-130), fired by the event loop at
a time now only while the timer is still pending; firing consumes the timer.
The callback shares the closure variables: when at least 100 ms passed since
lastWriteTime and the flag is still up and the widget ref is non-null, it writes
the force-scroll sequence and lowers the flag. -/
def fireStep (refPresent : Bool) (st : SubState) (ts : TimerSys) (h now : Nat) :
    SubState × TimerSys × List SubOutput :=
  if ts.active.any (fun e => e.1 = h) then
    let ts1 := clearTimeoutJs ts h
    if 100 ≤ now - st.lastWriteTime ∧ st.cursorMovedToHome = true ∧ refPresent = true then
      ({ st with cursorMovedToHome := false }, ts1, [SubOutput.termWrite "\x1b[9999;1H"])
    else (st, ts1, [])
  else (st, ts, [])

/-- The terminal:exit handler (lines 142-147): on a matching payload it sets the
error state to the exit message. -/
def exitStep (st : SubState) (payload : Option ExitPayload) : List SubOutput :=
  match payload with
  | none => []
  | some q =>
    if q.sessionId = st.sessionId then
      [SubOutput.setError ("Terminal process exited with code " ++ toString q.exitCode)]
    else []

/-- Inputs delivered to the subscription effect by the host and the event loop. -/
inductive SubInput where
  | dataEvt (now : Nat) (payload : Option DataPayload)
  | exitEvt (payload : Option ExitPayload)
  | fire (h : Nat) (now : Nat)
  deriving Repr, DecidableEq

/-- Dispatch one input. -/
def subStep (refPresent : Bool) (st : SubState) (ts : TimerSys) :
    SubInput → SubState × TimerSys × List SubOutput
  | .dataEvt now payload => dataStep refPresent st ts now payload
  | .exitEvt payload => (st, ts, exitStep st payload)
  | .fire h now => fireStep refPresent st ts h now

/-- Run a list of inputs, accumulating the outputs. -/
def subRun (refPresent : Bool) (st : SubState) (ts : TimerSys) :
    List SubInput → SubState × TimerSys × List SubOutput
  | [] => (st, ts, [])
  | i :: is =>
    let r1 := subStep refPresent st ts i
    let r2 := subRun refPresent r1.1 r1.2.1 is
    (r2.1, r2.2.1, r1.2.2 ++ r2.2.2)

/-- The effect cleanup (lines 149-155): clear the pending auto-scroll timeout,
if any, before unsubscribing. -/
def subCleanup (st : SubState) (ts : TimerSys) : TimerSys :=
  match st.autoScrollTimeout with
  | some h => clearTimeoutJs ts h
  | none => ts

/-- Reachability invariant of the subscription machine: timer ids are below the
fresh-id counter, and either no timer is pending, or exactly the one recorded in
autoScrollTimeout is pending, scheduled 100 ms after lastWriteTime, with the
cursor-home flag up. -/
def SubInv (st : SubState) (ts : TimerSys) : Prop :=
  (∀ h, st.autoScrollTimeout = some h → h < ts.nextId) ∧
  (ts.active = [] ∨
    ∃ h, st.autoScrollTimeout = some h ∧
      ts.active = [(h, st.lastWriteTime + 100)] ∧
      st.cursorMovedToHome = true)

theorem subInv_init (sid : String) : SubInv (initSubState sid) initTimerSys := by
  constructor
  · intro h hh
    simp [initSubState] at hh
  · left; rfl

theorem subInv_step (refPresent : Bool) (st : SubState) (ts : TimerSys) (i : SubInput)
    (hinv : SubInv st ts) :
    SubInv (subStep refPresent st ts i).1 (subStep refPresent st ts i).2.1 := by
  obtain ⟨hid, hcase⟩ := hinv
  cases i with
  | dataEvt now payload =>
    cases payload with
    | none => exact ⟨hid, hcase⟩
    | some p =>
      simp only [subStep, dataStep]
      by_cases hg : p.sessionId = st.sessionId ∧ refPresent = true
      · simp only [if_pos hg]
        by_cases hm : (if containsCursorHome p.data then true else st.cursorMovedToHome) = true
        · simp only [hm, if_pos]
          constructor
          · intro h hh
            simp only [Option.some.injEq] at hh
            subst hh
            cases hst : st.autoScrollTimeout with
            | none => simp [hst, setTimeoutJs]
            | some h0 => simp [hst, setTimeoutJs, clearTimeoutJs]
          · right
            refine ⟨_, rfl, ?_, rfl⟩
            cases hst : st.autoScrollTimeout with
            | none =>
              rcases hcase with hempty | ⟨h0, hh0, _, _⟩
              · simp [hst, setTimeoutJs, hempty]
              · rw [hst] at hh0; cases hh0
            | some h0 =>
              rcases hcase with hempty | ⟨h1, hh1, hact, _⟩
              · simp [hst, setTimeoutJs, clearTimeoutJs, hempty]
              · rw [hst] at hh1
                cases hh1
                simp [hst, setTimeoutJs, clearTimeoutJs, hact]
        · simp only [if_neg hm]
          refine ⟨hid, ?_⟩
          rcases hcase with hempty | ⟨h0, _, _, hflag⟩
          · left; exact hempty
          · exact absurd (by cases hcb : containsCursorHome p.data <;> simp [hcb, hflag]) hm
      · simp only [if_neg hg]
        exact ⟨hid, hcase⟩
  | exitEvt payload => exact ⟨hid, hcase⟩
  | fire h now =>
    simp only [subStep, fireStep]
    by_cases hmem : ts.active.any (fun e => e.1 = h) = true
    · simp only [hmem, if_pos]
      have hempty : (clearTimeoutJs ts h).active = [] := by
        rcases hcase with hempty | ⟨h0, hh0, hact, hflag⟩
        · simp [clearTimeoutJs, hempty]
        · rw [hact] at hmem
          simp only [List.any_cons, List.any_nil, Bool.or_false, decide_eq_true_eq] at hmem
          subst hmem
          simp [clearTimeoutJs, hact]
      by_cases hc : 100 ≤ now - st.lastWriteTime ∧ st.cursorMovedToHome = true ∧
          refPresent = true
      · simp only [if_pos hc]
        exact ⟨hid, Or.inl hempty⟩
      · simp only [if_neg hc]
        exact ⟨hid, Or.inl hempty⟩
    · rw [if_neg hmem]
      exact ⟨hid, hcase⟩

theorem subInv_run (refPresent : Bool) (st : SubState) (ts : TimerSys)
    (inputs : List SubInput) (hinv : SubInv st ts) :
    SubInv (subRun refPresent st ts inputs).1 (subRun refPresent st ts inputs).2.1 := by
  induction inputs generalizing st ts with
  | nil => exact hinv
  | cons i is ih =>
    simp only [subRun]
    exact ih _ _ (subInv_step refPresent st ts i hinv)

/-! ### Theorems for claims C4, C2, C8 -/

/-- Claim C4: starting from the state the subscription effect sets up, at most
one auto-scroll debounce timer is ever pending, whatever inputs arrive, and the
effect cleanup cancels any still-pending timeout, so no timer outlives the
subscription. -/
theorem single_debounce_timer (refPresent : Bool) (sid : String) (inputs : List SubInput) :
    (subRun refPresent (initSubState sid) initTimerSys inputs).2.1.active.length ≤ 1 ∧
    (subCleanup (subRun refPresent (initSubState sid) initTimerSys inputs).1
        (subRun refPresent (initSubState sid) initTimerSys inputs).2.1).active = [] := by
  obtain ⟨hid, hcase⟩ :=
    subInv_run refPresent (initSubState sid) initTimerSys inputs (subInv_init sid)
  constructor
  · rcases hcase with hempty | ⟨h, _, hact, _⟩
    · simp [hempty]
    · simp [hact]
  · rcases hcase with hempty | ⟨h, hh, hact, _⟩
    · cases hto : (subRun refPresent (initSubState sid) initTimerSys inputs).1.autoScrollTimeout with
      | none => simp [subCleanup, hto, hempty]
      | some h0 => simp [subCleanup, hto, clearTimeoutJs, hempty]
    · simp [subCleanup, hh, clearTimeoutJs, hact]

/-- Claim C2: the auto-scroll debounce.  With the cursor-home flag up and the
scheduled 100 ms timer pending: (1) firing after a quiet 100 ms writes the
force-scroll sequence exactly once, resets the flag and consumes the timer;
(2) a further data event for the session cancels the pending timer and
schedules a fresh one 100 ms after itself, writing only the incoming payload;
(3) a cancelled timer never fires; (4) once the flag is reset a firing timer
writes nothing more; (5) a cursor-home data event from an idle state raises the
flag and schedules the 100 ms timer. -/
theorem autoscroll_debounce (st : SubState) (ts : TimerSys) (h now : Nat)
    (hto : st.autoScrollTimeout = some h)
    (hact : ts.active = [(h, st.lastWriteTime + 100)])
    (hflag : st.cursorMovedToHome = true)
    (hfresh : h < ts.nextId)
    (hquiet : st.lastWriteTime + 100 ≤ now) :
    (fireStep true st ts h now =
      ({ st with cursorMovedToHome := false },
        { ts with active := [] },
        [SubOutput.termWrite "\x1b[9999;1H"])) ∧
    (∀ t q, q.sessionId = st.sessionId →
      dataStep true st ts t (some q) =
        ({ st with
            cursorMovedToHome := true, lastWriteTime := t,
            autoScrollTimeout := some ts.nextId },
          { active := [(ts.nextId, t + 100)], nextId := ts.nextId + 1 },
          [SubOutput.termWrite q.data]) ∧ ts.nextId ≠ h) ∧
    (∀ st2 ts2 now2, (∀ e ∈ ts2.active, e.1 ≠ h) →
      fireStep true st2 ts2 h now2 = (st2, ts2, [])) ∧
    (∀ ts2 h2 now2,
      (fireStep true { st with cursorMovedToHome := false } ts2 h2 now2).2.2 = []) ∧
    (∀ st0 ts0 t0 q0, st0.autoScrollTimeout = none → q0.sessionId = st0.sessionId →
      containsCursorHome q0.data = true →
      dataStep true st0 ts0 t0 (some q0) =
        ({ st0 with
            cursorMovedToHome := true, lastWriteTime := t0,
            autoScrollTimeout := some ts0.nextId },
          { active := ts0.active ++ [(ts0.nextId, t0 + 100)], nextId := ts0.nextId + 1 },
          [SubOutput.termWrite q0.data])) := by
  refine ⟨?_, ?_, ?_, ?_, ?_⟩
  · have hmem : ts.active.any (fun e => e.1 = h) = true := by simp [hact]
    have hcond : 100 ≤ now - st.lastWriteTime := by omega
    simp [fireStep, hmem, clearTimeoutJs, hact, hcond, hflag]
  · intro t q hq
    refine ⟨?_, by omega⟩
    have hmoved : (if containsCursorHome q.data then true else st.cursorMovedToHome) = true := by
      cases hcb : containsCursorHome q.data <;> simp [hcb, hflag]
    simp [dataStep, hq, hmoved, hto, clearTimeoutJs, setTimeoutJs, hact]
  · intro st2 ts2 now2 hnone
    have hmem : ts2.active.any (fun e => e.1 = h) = false := by
      rw [List.any_eq_false]
      intro e he
      simpa using hnone e he
    simp [fireStep, hmem]
  · intro ts2 h2 now2
    by_cases hmem : ts2.active.any (fun e => e.1 = h2) = true
    · simp [fireStep, hmem]
    · simp only [fireStep, if_neg hmem]
  · intro st0 ts0 t0 q0 hto0 hq0 hcb0
    simp [dataStep, hq0, hcb0, hto0, setTimeoutJs]

/-- Concrete state for the claim C2 witness: flag up, timer 0 pending for time
100, fresh ids from 1. -/
def witSubState : SubState :=
  { sessionId := "mock-session-1", lastWriteTime := 0, cursorMovedToHome := true,
    autoScrollTimeout := some 0 }

/-- Concrete timers for the claim C2 witness. -/
def witTimerSys : TimerSys :=
  { active := [(0, 100)], nextId := 1 }

/-- Witness for claim C2: firing the pending timer at time 100 writes the
force-scroll sequence once, resets the flag and consumes the timer. -/
theorem autoscroll_debounce_witness :
    fireStep true witSubState witTimerSys 0 100 =
      ({ witSubState with cursorMovedToHome := false },
        { witTimerSys with active := [] },
        [SubOutput.termWrite "\x1b[9999;1H"]) :=
  (autoscroll_debounce witSubState witTimerSys 0 100 rfl (by decide) rfl (by decide)
    (by decide)).1

/-- Claim C8: a terminal:data or terminal:exit event with a missing payload or a
session id other than the panel's changes nothing: no widget write, no timer
scheduled or cleared, no error update. -/
theorem mismatched_event_frame (refPresent : Bool) (st : SubState) (ts : TimerSys)
    (now : Nat) (dp : Option DataPayload) (ep : Option ExitPayload)
    (hd : ∀ p, dp = some p → p.sessionId ≠ st.sessionId)
    (he : ∀ q, ep = some q → q.sessionId ≠ st.sessionId) :
    dataStep refPresent st ts now dp = (st, ts, []) ∧ exitStep st ep = [] := by
  constructor
  · cases dp with
    | none => rfl
    | some p =>
      have hne := hd p rfl
      simp [dataStep, hne]
  · cases ep with
    | none => rfl
    | some q =>
      have hne := he q rfl
      simp [exitStep, hne]

/-- Witness for claim C8 at a concrete mismatched payload. -/
theorem mismatched_event_frame_witness :
    dataStep true (initSubState "mock-session-1") initTimerSys 5
        (some { sessionId := "mock-session-2", data := "x" }) =
      (initSubState "mock-session-1", initTimerSys, []) ∧
    exitStep (initSubState "mock-session-1")
        (some { sessionId := "mock-session-2", exitCode := 0 }) = [] :=
  mismatched_event_frame true (initSubState "mock-session-1") initTimerSys 5
    (some { sessionId := "mock-session-2", data := "x" })
    (some { sessionId := "mock-session-2", exitCode := 0 })
    (by intro p hp; cases hp; decide)
    (by intro q hq; cases hq; decide)

/-! ### Claim C6: the session id is opaque

A renaming of session-id strings applied to the id the host returned and to the
session ids carried by incoming events commutes with the panel's behaviour: the
machine state is renamed pointwise, while the widget writes, the error updates
and the timers are literally unchanged, and the id is passed verbatim to
writeToTerminal, resizeTerminal and destroyTerminalSession. -/

/-- Rename the session id in a data payload. -/
def renameDataPayload (ρ : String → String) (p : DataPayload) : DataPayload :=
  { sessionId := ρ p.sessionId, data := p.data }

/-- Rename the session id in an exit payload. -/
def renameExitPayload (ρ : String → String) (q : ExitPayload) : ExitPayload :=
  { sessionId := ρ q.sessionId, exitCode := q.exitCode }

/-- Rename the session ids carried by an input. -/
def renameSubInput (ρ : String → String) : SubInput → SubInput
  | .dataEvt now payload => .dataEvt now (payload.map (renameDataPayload ρ))
  | .exitEvt payload => .exitEvt (payload.map (renameExitPayload ρ))
  | .fire h now => .fire h now

/-- Rename the session id captured by the subscription effect. -/
def renameSubState (ρ : String → String) (st : SubState) : SubState :=
  { st with sessionId := ρ st.sessionId }

/-- Rename the session id in a host call. -/
def renameHostCall (ρ : String → String) : HostCall → HostCall
  | .createSession cwd => .createSession cwd
  | .destroySession id => .destroySession (ρ id)
  | .writeToTerminal id data => .writeToTerminal (ρ id) data
  | .resizeTerminal id cols rows => .resizeTerminal (ρ id) cols rows

theorem subStep_rename (ρ : String → String) (hinj : Function.Injective ρ)
    (refPresent : Bool) (st : SubState) (ts : TimerSys) (i : SubInput) :
    subStep refPresent (renameSubState ρ st) ts (renameSubInput ρ i) =
      (renameSubState ρ (subStep refPresent st ts i).1,
        (subStep refPresent st ts i).2.1, (subStep refPresent st ts i).2.2) := by
  obtain ⟨sid, lwt, flag, sto⟩ := st
  cases i with
  | dataEvt now payload =>
    cases payload with
    | none => rfl
    | some p =>
      simp only [renameSubInput, Option.map_some', subStep, dataStep, renameDataPayload,
        renameSubState]
      by_cases hg : p.sessionId = sid ∧ refPresent = true
      · rw [if_pos hg, if_pos (show ρ p.sessionId = ρ sid ∧ refPresent = true from
          ⟨congrArg ρ hg.1, hg.2⟩)]
        by_cases hm : (if containsCursorHome p.data then true else flag) = true
        · rw [if_pos hm, if_pos hm]
        · rw [if_neg hm, if_neg hm]
      · rw [if_neg hg, if_neg (show ¬ (ρ p.sessionId = ρ sid ∧ refPresent = true) from
          fun hgr => hg ⟨hinj hgr.1, hgr.2⟩)]
  | exitEvt payload =>
    cases payload with
    | none => rfl
    | some q =>
      simp only [renameSubInput, Option.map_some', subStep, exitStep, renameExitPayload,
        renameSubState]
      by_cases hg : q.sessionId = sid
      · rw [if_pos hg, if_pos (show ρ q.sessionId = ρ sid from congrArg ρ hg)]
      · rw [if_neg hg, if_neg (show ¬ ρ q.sessionId = ρ sid from fun hgr => hg (hinj hgr))]
  | fire h now =>
    simp only [renameSubInput, subStep, fireStep, renameSubState]
    by_cases hmem : ts.active.any (fun e => e.1 = h) = true
    · rw [if_pos hmem, if_pos hmem]
      by_cases hc : 100 ≤ now - lwt ∧ flag = true ∧ refPresent = true
      · rw [if_pos hc, if_pos hc]
      · rw [if_neg hc, if_neg hc]
    · rw [if_neg hmem, if_neg hmem]

theorem subRun_rename (ρ : String → String) (hinj : Function.Injective ρ)
    (refPresent : Bool) (st : SubState) (ts : TimerSys) (inputs : List SubInput) :
    subRun refPresent (renameSubState ρ st) ts (inputs.map (renameSubInput ρ)) =
      (renameSubState ρ (subRun refPresent st ts inputs).1,
        (subRun refPresent st ts inputs).2.1,
        (subRun refPresent st ts inputs).2.2) := by
  induction inputs generalizing st ts with
  | nil => rfl
  | cons i is ih =>
    simp only [List.map_cons, subRun, subStep_rename ρ hinj refPresent st ts i, ih]

/-- Claim C6: the panel treats the session id as opaque.  Renaming the id
commutes with the whole subscription machine, leaving widget writes, error
updates and timers unchanged, and the id is passed verbatim (only renamed) to
writeToTerminal, resizeTerminal and the cleanup's destroyTerminalSession. -/
theorem session_id_renaming (ρ : String → String) (hinj : Function.Injective ρ)
    (refPresent : Bool) (st : SubState) (ts : TimerSys) (inputs : List SubInput)
    (id data : String) (cols rows : Int) (b : Bool) :
    (subRun refPresent (renameSubState ρ st) ts (inputs.map (renameSubInput ρ)) =
      (renameSubState ρ (subRun refPresent st ts inputs).1,
        (subRun refPresent st ts inputs).2.1,
        (subRun refPresent st ts inputs).2.2)) ∧
    (handleTerminalData (some (ρ id)) b data =
      (handleTerminalData (some id) b data).map (renameHostCall ρ)) ∧
    (handleTerminalResize (some (ρ id)) b cols rows =
      (handleTerminalResize (some id) b cols rows).map (renameHostCall ρ)) ∧
    (mountCleanup (some (ρ id)) b = (mountCleanup (some id) b).map (renameHostCall ρ)) := by
  refine ⟨subRun_rename ρ hinj refPresent st ts inputs, ?_, ?_, ?_⟩ <;> cases b <;> rfl

/-- Witness for claim C6 with the renaming that appends a bang to the id, at a
concrete state and input list. -/
theorem session_id_renaming_witness :
    (subRun true (renameSubState (fun s => s ++ "!") (initSubState "a")) initTimerSys
        ([SubInput.dataEvt 3 (some { sessionId := "a", data := "out" })].map
          (renameSubInput (fun s => s ++ "!"))) =
      (renameSubState (fun s => s ++ "!")
          (subRun true (initSubState "a") initTimerSys
            [SubInput.dataEvt 3 (some { sessionId := "a", data := "out" })]).1,
        (subRun true (initSubState "a") initTimerSys
            [SubInput.dataEvt 3 (some { sessionId := "a", data := "out" })]).2.1,
        (subRun true (initSubState "a") initTimerSys
            [SubInput.dataEvt 3 (some { sessionId := "a", data := "out" })]).2.2)) ∧
    (handleTerminalData (some ((fun s => s ++ "!") "a")) true "ls" =
      (handleTerminalData (some "a") true "ls").map (renameHostCall (fun s => s ++ "!"))) :=
  have hinj : Function.Injective (fun s : String => s ++ "!") := by
    intro a b hab
    have : (a ++ "!").data = (b ++ "!").data := congrArg String.data hab
    simp only [String.data_append] at this
    exact String.ext (List.append_inj_left' this rfl)
  ⟨(session_id_renaming (fun s => s ++ "!") hinj true (initSubState "a") initTimerSys
      [SubInput.dataEvt 3 (some { sessionId := "a", data := "out" })]
      "a" "ls" 80 24 true).1,
    (session_id_renaming (fun s => s ++ "!") hinj true (initSubState "a") initTimerSys
      [SubInput.dataEvt 3 (some { sessionId := "a", data := "out" })]
      "a" "ls" 80 24 true).2.1⟩

/-! ### Mock event emitter (mocks/panelContext.tsx, createMockEvents)

The emitter keeps a Map from event type to a Set of handlers.  Handlers are
modelled by numeric identifiers; a JS Set keeps each element once, which the
model renders as a duplicate-free list with guarded insertion. -/

/-- The handlers Map: association list from event type to its handler set. -/
abbrev Registry := List (String × List Nat)

/-- handlers.get: the entry stored under the type, if any. -/
def regGet : Registry → String → Option (List Nat)
  | [], _ => none
  | e :: es, t => if e.1 = t then some e.2 else regGet es t

/-- The membership view of the handler set for a type (empty when absent). -/
def handlersOf (reg : Registry) (t : String) : List Nat :=
  (regGet reg t).getD []

/-- Set.add: append unless already present. -/
def setAdd (s : List Nat) (h : Nat) : List Nat :=
  if h ∈ s then s else s ++ [h]

/-- Set.delete: remove the element. -/
def setDelete (s : List Nat) (h : Nat) : List Nat :=
  s.filter (fun x => x ≠ h)

/-- Overwrite the set stored under a type. -/
def regSet : Registry → String → List Nat → Registry
  | [], _, _ => []
  | e :: es, t, s => (if e.1 = t then (e.1, s) else e) :: regSet es t s

/-- events.on: create the set for the type when missing, then add the handler. -/
def emitterOn (reg : Registry) (t : String) (h : Nat) : Registry :=
  match regGet reg t with
  | some s => regSet reg t (setAdd s h)
  | none => reg ++ [(t, setAdd [] h)]

/-- The cleanup closure returned by events.on, and also events.off:
handlers.get(type)?.delete(handler). -/
def emitterOff (reg : Registry) (t : String) (h : Nat) : Registry :=
  match regGet reg t with
  | some s => regSet reg t (setDelete s h)
  | none => reg

/-- events.emit: the handlers invoked for an event, in set order, which are
exactly those currently registered under the event's type. -/
def emitInvocations (reg : Registry) (t : String) : List Nat :=
  handlersOf reg t

/-- Well-formedness of the registry: Map keys are unique and every handler set
is duplicate-free, as JS Map and Set guarantee. -/
def RegWF (reg : Registry) : Prop :=
  (reg.map (fun e => e.1)).Nodup ∧ ∀ e ∈ reg, e.2.Nodup

theorem regGet_regSet_self (reg : Registry) (t : String) (s : List Nat) :
    regGet (regSet reg t s) t = (regGet reg t).map (fun _ => s) := by
  induction reg with
  | nil => rfl
  | cons e es ih =>
    by_cases he : e.1 = t
    · simp [regSet, regGet, he]
    · simp [regSet, regGet, he, ih]

theorem regGet_regSet_other (reg : Registry) (t u : String) (s : List Nat)
    (hu : u ≠ t) :
    regGet (regSet reg t s) u = regGet reg u := by
  induction reg with
  | nil => rfl
  | cons e es ih =>
    by_cases he : e.1 = t
    · have htu : ¬ t = u := fun hc => hu hc.symm
      simp [regSet, regGet, he, htu, ih]
    · simp only [regSet, if_neg he]
      by_cases hev : e.1 = u
      · simp [regGet, hev]
      · simp [regGet, hev, ih]

theorem regGet_append_self (reg : Registry) (t : String) (s : List Nat)
    (hnone : regGet reg t = none) :
    regGet (reg ++ [(t, s)]) t = some s := by
  induction reg with
  | nil => simp [regGet]
  | cons e es ih =>
    by_cases he : e.1 = t
    · simp [regGet, he] at hnone
    · simp only [regGet, if_neg he] at hnone
      simp only [List.cons_append, regGet, if_neg he]
      exact ih hnone

theorem regGet_append_other (reg : Registry) (t u : String) (s : List Nat)
    (hu : u ≠ t) :
    regGet (reg ++ [(t, s)]) u = regGet reg u := by
  induction reg with
  | nil =>
    have hne : ¬ t = u := fun hc => hu hc.symm
    simp [regGet, hne]
  | cons e es ih =>
    by_cases he : e.1 = u
    · simp [regGet, he]
    · simp only [List.cons_append, regGet, if_neg he]
      exact ih

theorem handlersOf_on_self (reg : Registry) (t : String) (h : Nat) :
    handlersOf (emitterOn reg t h) t = setAdd (handlersOf reg t) h := by
  unfold emitterOn
  cases hg : regGet reg t with
  | some s => simp [handlersOf, regGet_regSet_self, hg]
  | none => simp [handlersOf, regGet_append_self reg t _ hg, hg]

theorem handlersOf_on_other (reg : Registry) (t u : String) (h : Nat) (hu : u ≠ t) :
    handlersOf (emitterOn reg t h) u = handlersOf reg u := by
  unfold emitterOn
  cases hg : regGet reg t with
  | some s => simp [handlersOf, regGet_regSet_other reg t u _ hu]
  | none => simp [handlersOf, regGet_append_other reg t u _ hu]

theorem handlersOf_off_self (reg : Registry) (t : String) (h : Nat) :
    handlersOf (emitterOff reg t h) t = setDelete (handlersOf reg t) h := by
  unfold emitterOff
  cases hg : regGet reg t with
  | some s => simp [handlersOf, regGet_regSet_self, hg]
  | none => simp [handlersOf, hg, setDelete]

theorem handlersOf_off_other (reg : Registry) (t u : String) (h : Nat) (hu : u ≠ t) :
    handlersOf (emitterOff reg t h) u = handlersOf reg u := by
  unfold emitterOff
  cases hg : regGet reg t with
  | some s => simp [handlersOf, regGet_regSet_other reg t u _ hu]
  | none => rfl

theorem filter_ne_of_not_mem (s : List Nat) (h : Nat) (hnot : h ∉ s) :
    s.filter (fun x => x ≠ h) = s := by
  rw [List.filter_eq_self]
  intro a ha
  simp only [ne_eq, decide_not, Bool.not_eq_eq_eq_not, Bool.not_true, decide_eq_false_iff_not]
  intro hc
  rw [hc] at ha
  exact hnot ha

theorem setDelete_setAdd (s : List Nat) (h : Nat) (hnot : h ∉ s) :
    setDelete (setAdd s h) h = s := by
  unfold setAdd setDelete
  rw [if_neg hnot, List.filter_append, filter_ne_of_not_mem s h hnot]
  simp

theorem mem_setAdd_iff (s : List Nat) (h x : Nat) :
    x ∈ setAdd s h ↔ x ∈ s ∨ x = h := by
  unfold setAdd
  by_cases hmem : h ∈ s
  · rw [if_pos hmem]
    constructor
    · exact Or.inl
    · rintro (hx | rfl)
      · exact hx
      · exact hmem
  · rw [if_neg hmem]
    simp

theorem handlersOf_roundtrip (reg : Registry) (t : String) (h : Nat)
    (hnot : h ∉ handlersOf reg t) (u : String) :
    handlersOf (emitterOff (emitterOn reg t h) t h) u = handlersOf reg u := by
  by_cases hu : u = t
  · subst hu
    rw [handlersOf_off_self, handlersOf_on_self, setDelete_setAdd _ _ hnot]
  · rw [handlersOf_off_other _ _ _ _ hu, handlersOf_on_other _ _ _ _ hu]

theorem handlersOf_nodup (reg : Registry) (hwf : RegWF reg) (t : String) :
    (handlersOf reg t).Nodup := by
  induction reg with
  | nil => simp [handlersOf, regGet]
  | cons e es ih =>
    have hwfes : RegWF es :=
      ⟨(List.nodup_cons.mp hwf.1).2, fun x hx => hwf.2 x (List.mem_cons_of_mem _ hx)⟩
    by_cases he : e.1 = t
    · simp only [handlersOf, regGet, if_pos he, Option.getD_some]
      exact hwf.2 e (List.mem_cons_self _ _)
    · simp only [handlersOf, regGet, if_neg he]
      exact ih hwfes

/-! ### Theorems for claims C10 and C5 -/

/-- A registry in which handler 0 is already subscribed to terminal:data. -/
def staleRegistry : Registry := [("terminal:data", [0])]

/-- Counterexample to claim C10 as stated: subscribing a handler that is already
registered for the type and then running the returned cleanup does not restore
the prior membership; the pre-existing registration is deleted too. -/
theorem emitter_roundtrip_cex :
    handlersOf (emitterOff (emitterOn staleRegistry "terminal:data" 0)
        "terminal:data" 0) "terminal:data"
      ≠ handlersOf staleRegistry "terminal:data" := by decide

/-- Claim C10 (amended): provided the handler is not already registered for the
type, subscribe-then-cleanup restores every handler set, and emit invokes
exactly the handlers currently registered for the event's type, each once, and
none registered only under another type. -/
theorem emitter_on_off_roundtrip (reg : Registry) (t : String) (h : Nat)
    (hwf : RegWF reg) (hnot : h ∉ handlersOf reg t) :
    (∀ u, handlersOf (emitterOff (emitterOn reg t h) t h) u = handlersOf reg u) ∧
    (emitInvocations reg t = handlersOf reg t) ∧
    (emitInvocations reg t).Nodup ∧
    (∀ x, x ∉ handlersOf reg t → x ∉ emitInvocations reg t) := by
  exact ⟨fun u => handlersOf_roundtrip reg t h hnot u, rfl,
    handlersOf_nodup reg hwf t, fun x hx => hx⟩

/-- Witness for claim C10 on a concrete registry. -/
theorem emitter_on_off_roundtrip_witness :
    handlersOf (emitterOff (emitterOn [("terminal:exit", [5])] "terminal:data" 0)
        "terminal:data" 0) "terminal:data"
      = handlersOf [("terminal:exit", [5])] "terminal:data" ∧
    (emitInvocations [("terminal:exit", [5])] "terminal:data").Nodup :=
  ⟨(emitter_on_off_roundtrip [("terminal:exit", [5])] "terminal:data" 0
      (by constructor <;> decide) (by decide)).1 "terminal:data",
    (emitter_on_off_roundtrip [("terminal:exit", [5])] "terminal:data" 0
      (by constructor <;> decide) (by decide)).2.2.1⟩

/-- The subscription effect registering its two handlers (lines 88-147): first
terminal:data, then terminal:exit; hData and hExit identify the two freshly
created handler closures. -/
def subscribeEffect (reg : Registry) (hData hExit : Nat) : Registry :=
  emitterOn (emitterOn reg "terminal:data" hData) "terminal:exit" hExit

/-- The effect cleanup unsubscribing (lines 149-155): unsubscribeData, then
unsubscribeExit. -/
def unsubscribeEffect (reg : Registry) (hData hExit : Nat) : Registry :=
  emitterOff (emitterOff reg "terminal:data" hData) "terminal:exit" hExit

/-- Claim C5: once a session id is set, the panel registers its two fresh
handlers under exactly terminal:data and terminal:exit, every other event type
being untouched and carrying neither handler, and the effect cleanup removes
both registrations, restoring every handler set. -/
theorem subscription_exactly_two (reg : Registry) (hData hExit : Nat)
    (hfreshD : ∀ u, hData ∉ handlersOf reg u)
    (hfreshE : ∀ u, hExit ∉ handlersOf reg u)
    (hne : hData ≠ hExit) :
    (hData ∈ handlersOf (subscribeEffect reg hData hExit) "terminal:data") ∧
    (hExit ∈ handlersOf (subscribeEffect reg hData hExit) "terminal:exit") ∧
    (∀ u, u ≠ "terminal:data" → u ≠ "terminal:exit" →
      handlersOf (subscribeEffect reg hData hExit) u = handlersOf reg u) ∧
    (∀ u, u ≠ "terminal:data" →
      hData ∉ handlersOf (subscribeEffect reg hData hExit) u) ∧
    (∀ u, u ≠ "terminal:exit" →
      hExit ∉ handlersOf (subscribeEffect reg hData hExit) u) ∧
    (∀ u, handlersOf (unsubscribeEffect (subscribeEffect reg hData hExit) hData hExit) u =
      handlersOf reg u) := by
  have hde : ("terminal:data" : String) ≠ "terminal:exit" := by decide
  refine ⟨?_, ?_, ?_, ?_, ?_, ?_⟩
  · rw [subscribeEffect, handlersOf_on_other _ _ _ _ hde, handlersOf_on_self]
    rw [mem_setAdd_iff]
    exact Or.inr rfl
  · rw [subscribeEffect, handlersOf_on_self, mem_setAdd_iff]
    exact Or.inr rfl
  · intro u hud hue
    rw [subscribeEffect, handlersOf_on_other _ _ _ _ hue, handlersOf_on_other _ _ _ _ hud]
  · intro u hud
    by_cases hue : u = "terminal:exit"
    · subst hue
      rw [subscribeEffect, handlersOf_on_self, mem_setAdd_iff]
      rintro (hmem | heq)
      · rw [handlersOf_on_other _ _ _ _ (Ne.symm hde)] at hmem
        exact hfreshD _ hmem
      · exact hne heq
    · rw [subscribeEffect, handlersOf_on_other _ _ _ _ hue, handlersOf_on_other _ _ _ _ hud]
      exact hfreshD u
  · intro u hue
    rw [subscribeEffect, handlersOf_on_other _ _ _ _ hue]
    by_cases hud : u = "terminal:data"
    · subst hud
      rw [handlersOf_on_self, mem_setAdd_iff]
      rintro (hmem | heq)
      · exact hfreshE _ hmem
      · exact hne heq.symm
    · rw [handlersOf_on_other _ _ _ _ hud]
      exact hfreshE u
  · intro u
    by_cases hud : u = "terminal:data"
    · subst hud
      rw [unsubscribeEffect, handlersOf_off_other _ _ _ _ hde, handlersOf_off_self,
        subscribeEffect, handlersOf_on_other _ _ _ _ hde, handlersOf_on_self,
        setDelete_setAdd _ _ (hfreshD _)]
    · by_cases hue : u = "terminal:exit"
      · subst hue
        rw [unsubscribeEffect, handlersOf_off_self,
          handlersOf_off_other _ _ _ _ (Ne.symm hde),
          subscribeEffect, handlersOf_on_self, handlersOf_on_other _ _ _ _ (Ne.symm hde),
          setDelete_setAdd _ _ (hfreshE _)]
      · rw [unsubscribeEffect, handlersOf_off_other _ _ _ _ hue,
          handlersOf_off_other _ _ _ _ hud,
          subscribeEffect, handlersOf_on_other _ _ _ _ hue,
          handlersOf_on_other _ _ _ _ hud]

/-- Witness for claim C5 on the empty registry with fresh handlers 0 and 1. -/
theorem subscription_exactly_two_witness :
    (0 ∈ handlersOf (subscribeEffect [] 0 1) "terminal:data") ∧
    (1 ∈ handlersOf (subscribeEffect [] 0 1) "terminal:exit") ∧
    handlersOf (unsubscribeEffect (subscribeEffect [] 0 1) 0 1) "terminal:data" =
      handlersOf [] "terminal:data" :=
  have hf0 : ∀ u, 0 ∉ handlersOf [] u := by
    intro u
    simp [handlersOf, regGet]
  have hf1 : ∀ u, 1 ∉ handlersOf [] u := by
    intro u
    simp [handlersOf, regGet]
  ⟨(subscription_exactly_two [] 0 1 hf0 hf1 (by decide)).1,
    (subscription_exactly_two [] 0 1 hf0 hf1 (by decide)).2.1,
    (subscription_exactly_two [] 0 1 hf0 hf1 (by decide)).2.2.2.2.2 "terminal:data"⟩

/-! ### Mock terminal backend (TerminalPanel.stories.tsx lines 22-155)

MockTerminalBackend keeps a Map from session id to (cwd, shell) and emits
terminal:data events through the panel event emitter.  The JS string operations
it uses (trim, startsWith, substring, split + pop) are modelled on the
character lists underlying the strings. -/

/-- JS String.prototype.trim: strip leading and trailing whitespace. -/
def jsTrim (s : String) : String :=
  ⟨((s.data.dropWhile Char.isWhitespace).reverse.dropWhile Char.isWhitespace).reverse⟩

/-- JS String.prototype.startsWith. -/
def jsStartsWith (s pre : String) : Bool :=
  pre.data.isPrefixOf s.data

/-- JS String.prototype.substring(n) for an ASCII prefix: drop the first n
characters. -/
def jsDropChars (s : String) (n : Nat) : String :=
  ⟨s.data.drop n⟩

/-- The segment after the last separator: JS split(sep) followed by pop(). -/
def lastSegment (sep : Char) (l : List Char) : List Char :=
  l.foldl (fun acc c => if c = sep then [] else acc ++ [c]) []

/-- JS cwd.split(sep).pop(): split never yields an empty array, so pop is the
last segment. -/
def jsSplitPop (s : String) (sep : Char) : String :=
  ⟨lastSegment sep s.data⟩

/-- A backend session record: cwd and shell (stories line 23). -/
structure MockSession where
  cwd : String
  shell : String
  deriving Repr, DecidableEq

/-- The backend's session Map. -/
abbrev SessionMap := List (String × MockSession)

/-- sessions.get on the session Map. -/
def sessionsGet : SessionMap → String → Option MockSession
  | [], _ => none
  | e :: es, sid => if e.1 = sid then some e.2 else sessionsGet es sid

/-- The zsh-style prompt sent after every command (stories lines 134-137), with
the last path component of the session cwd. -/
def mockPrompt (cwd : String) : String :=
  "\x1b[1;32m➜\x1b[0m  \x1b[1;36m" ++ jsSplitPop cwd '/' ++
    "\x1b[0m \x1b[1;34mgit:(\x1b[1;31mmain\x1b[1;34m)\x1b[0m $ "

/-- Canned ls listing (stories lines 104-108). -/
def lsOutput : String :=
  "\x1b[1;34msrc\x1b[0m      \x1b[1;34mdist\x1b[0m     package.json  README.md     tsconfig.json\n"

/-- Canned git status listing, one entry per sendData call (lines 114-118). -/
def gitStatusOutput : List String :=
  ["\x1b[1;32mOn branch main\x1b[0m\n",
   "Your branch is up to date with \x27origin/main\x27.\n\n",
   "Changes not staged for commit:\n",
   "  \x1b[31mmodified:   src/panels/TerminalPanel.tsx\x1b[0m\n\n"]

/-- Canned help listing, one entry per sendData call (lines 121-128). -/
def helpOutput : List String :=
  ["Available mock commands:\n",
   "  ls           - List files\n",
   "  pwd          - Print working directory\n",
   "  echo [text]  - Echo text\n",
   "  git status   - Show git status\n",
   "  clear        - Clear screen\n",
   "  help         - Show this help\n"]

/-- The command-not-found message (line 130). -/
def notFoundOutput (cmd : String) : String :=
  "\x1b[31mzsh: command not found: " ++ cmd ++ "\x1b[0m\n"

/-- The if-else cascade of handleCommand (lines 104-131) applied to the trimmed
command, listing the data strings sent before the prompt. -/
def commandBody (session : MockSession) (cmd : String) : List String :=
  if cmd = "ls" then [lsOutput]
  else if cmd = "pwd" then [session.cwd ++ "\n"]
  else if jsStartsWith cmd "echo " then [jsDropChars cmd 5 ++ "\n"]
  else if cmd = "git status" then gitStatusOutput
  else if cmd = "clear" then ["\x1b[2J\x1b[H"]
  else if cmd = "help" then helpOutput
  else if cmd ≠ "" then [notFoundOutput cmd]
  else []

/-- MockTerminalBackend.handleCommand (lines 96-139): return early when the
session id is not in the Map; otherwise trim the command, send the cascade's
data, then always send the prompt; every sendData is one terminal:data event
carrying the session id. -/
def handleCommand (sessions : SessionMap) (sessionId command : String) :
    List DataPayload :=
  match sessionsGet sessions sessionId with
  | none => []
  | some session =>
    (commandBody session (jsTrim command) ++ [mockPrompt session.cwd]).map
      (fun d => { sessionId := sessionId, data := d })

theorem commandBody_pwd (session : MockSession) :
    commandBody session "pwd" = [session.cwd ++ "\n"] := by
  unfold commandBody
  rw [if_neg (by decide : ¬ ("pwd" : String) = "ls"), if_pos rfl]

theorem commandBody_echo (session : MockSession) (cmd : String)
    (hst : jsStartsWith cmd "echo " = true) :
    commandBody session cmd = [jsDropChars cmd 5 ++ "\n"] := by
  have hls : ¬ cmd = "ls" := by rintro rfl; exact absurd hst (by decide)
  have hpwd : ¬ cmd = "pwd" := by rintro rfl; exact absurd hst (by decide)
  unfold commandBody
  rw [if_neg hls, if_neg hpwd, if_pos hst]

theorem commandBody_ls (session : MockSession) :
    commandBody session "ls" = [lsOutput] := by
  unfold commandBody
  rw [if_pos rfl]

theorem commandBody_git (session : MockSession) :
    commandBody session "git status" = gitStatusOutput := by
  unfold commandBody
  rw [if_neg (by decide : ¬ ("git status" : String) = "ls"),
    if_neg (by decide : ¬ ("git status" : String) = "pwd"),
    if_neg (by decide : ¬ jsStartsWith "git status" "echo " = true), if_pos rfl]

theorem commandBody_clear (session : MockSession) :
    commandBody session "clear" = ["\x1b[2J\x1b[H"] := by
  unfold commandBody
  rw [if_neg (by decide : ¬ ("clear" : String) = "ls"),
    if_neg (by decide : ¬ ("clear" : String) = "pwd"),
    if_neg (by decide : ¬ jsStartsWith "clear" "echo " = true),
    if_neg (by decide : ¬ ("clear" : String) = "git status"), if_pos rfl]

theorem commandBody_help (session : MockSession) :
    commandBody session "help" = helpOutput := by
  unfold commandBody
  rw [if_neg (by decide : ¬ ("help" : String) = "ls"),
    if_neg (by decide : ¬ ("help" : String) = "pwd"),
    if_neg (by decide : ¬ jsStartsWith "help" "echo " = true),
    if_neg (by decide : ¬ ("help" : String) = "git status"),
    if_neg (by decide : ¬ ("help" : String) = "clear"), if_pos rfl]

theorem commandBody_not_found (session : MockSession) (cmd : String)
    (hempty : cmd ≠ "") (hls : cmd ≠ "ls") (hpwd : cmd ≠ "pwd")
    (hecho : jsStartsWith cmd "echo " = false) (hgit : cmd ≠ "git status")
    (hclear : cmd ≠ "clear") (hhelp : cmd ≠ "help") :
    commandBody session cmd = [notFoundOutput cmd] := by
  unfold commandBody
  rw [if_neg hls, if_neg hpwd,
    if_neg (by rw [hecho]; exact Bool.false_ne_true), if_neg hgit, if_neg hclear,
    if_neg hhelp, if_pos hempty]

theorem handleCommand_found (sessions : SessionMap) (sid command : String)
    (session : MockSession) (hs : sessionsGet sessions sid = some session) :
    handleCommand sessions sid command =
      (commandBody session (jsTrim command) ++ [mockPrompt session.cwd]).map
        (fun d => { sessionId := sid, data := d }) := by
  unfold handleCommand
  rw [hs]

/-! ### Theorems for claim C7 -/

/-- The session Map the counterexample and witness use. -/
def demoSessions : SessionMap :=
  [("mock-session-1", { cwd := "/Users/developer/my-project", shell := "zsh" })]

/-- Counterexample to claim C7 as stated: clear is a non-empty command other
than pwd, echo, ls and git status for an existing session, yet no emitted event
carries a command-not-found message; the backend sends the clear-screen
sequence instead. -/
theorem mock_clear_not_command_not_found :
    jsTrim "clear" = "clear" ∧
    ("clear" : String) ≠ "" ∧ ("clear" : String) ≠ "pwd" ∧ ("clear" : String) ≠ "ls" ∧
    ("clear" : String) ≠ "git status" ∧ jsStartsWith "clear" "echo " = false ∧
    (sessionsGet demoSessions "mock-session-1").isSome = true ∧
    (handleCommand demoSessions "mock-session-1" "clear").all
      (fun e => ! charListHasSeq "command not found".data e.data.data) = true := by
  decide

/-- Claim C7 (amended): for an existing session, pwd emits the session cwd plus
newline, echo text emits the text plus newline, ls and git status emit their
canned listings, clear emits the clear-screen sequence, help emits the help
listing, and any other non-empty command emits the command-not-found message;
in every case the prompt is emitted last; for a session id not in the Map
nothing is emitted. -/
theorem mock_backend_commands (sessions : SessionMap) (sid command : String)
    (session : MockSession)
    (hs : sessionsGet sessions sid = some session) :
    (jsTrim command = "pwd" →
      handleCommand sessions sid command =
        [{ sessionId := sid, data := session.cwd ++ "\n" },
         { sessionId := sid, data := mockPrompt session.cwd }]) ∧
    (jsStartsWith (jsTrim command) "echo " = true →
      handleCommand sessions sid command =
        [{ sessionId := sid, data := jsDropChars (jsTrim command) 5 ++ "\n" },
         { sessionId := sid, data := mockPrompt session.cwd }]) ∧
    (jsTrim command = "ls" →
      handleCommand sessions sid command =
        [{ sessionId := sid, data := lsOutput },
         { sessionId := sid, data := mockPrompt session.cwd }]) ∧
    (jsTrim command = "git status" →
      handleCommand sessions sid command =
        gitStatusOutput.map (fun d => { sessionId := sid, data := d }) ++
          [{ sessionId := sid, data := mockPrompt session.cwd }]) ∧
    (jsTrim command = "clear" →
      handleCommand sessions sid command =
        [{ sessionId := sid, data := "\x1b[2J\x1b[H" },
         { sessionId := sid, data := mockPrompt session.cwd }]) ∧
    (jsTrim command = "help" →
      handleCommand sessions sid command =
        helpOutput.map (fun d => { sessionId := sid, data := d }) ++
          [{ sessionId := sid, data := mockPrompt session.cwd }]) ∧
    (jsTrim command ≠ "" → jsTrim command ≠ "ls" → jsTrim command ≠ "pwd" →
      jsStartsWith (jsTrim command) "echo " = false → jsTrim command ≠ "git status" →
      jsTrim command ≠ "clear" → jsTrim command ≠ "help" →
      handleCommand sessions sid command =
        [{ sessionId := sid, data := notFoundOutput (jsTrim command) },
         { sessionId := sid, data := mockPrompt session.cwd }]) ∧
    ((handleCommand sessions sid command).getLast? =
      some { sessionId := sid, data := mockPrompt session.cwd }) ∧
    (∀ badSid, sessionsGet sessions badSid = none →
      handleCommand sessions badSid command = []) := by
  refine ⟨?_, ?_, ?_, ?_, ?_, ?_, ?_, ?_, ?_⟩
  · intro hcmd
    rw [handleCommand_found sessions sid command session hs, hcmd,
      commandBody_pwd]
    rfl
  · intro hcmd
    rw [handleCommand_found sessions sid command session hs,
      commandBody_echo session _ hcmd]
    rfl
  · intro hcmd
    rw [handleCommand_found sessions sid command session hs, hcmd,
      commandBody_ls]
    rfl
  · intro hcmd
    rw [handleCommand_found sessions sid command session hs, hcmd,
      commandBody_git]
    simp
  · intro hcmd
    rw [handleCommand_found sessions sid command session hs, hcmd,
      commandBody_clear]
    rfl
  · intro hcmd
    rw [handleCommand_found sessions sid command session hs, hcmd,
      commandBody_help]
    simp
  · intro hempty hls hpwd hecho hgit hclear hhelp
    rw [handleCommand_found sessions sid command session hs,
      commandBody_not_found session _ hempty hls hpwd hecho hgit hclear hhelp]
    rfl
  · rw [handleCommand_found sessions sid command session hs, List.map_append]
    simp
  · intro badSid hnone
    unfold handleCommand
    rw [hnone]

/-- Witness for claim C7: the pwd command on a concrete session map. -/
theorem mock_backend_commands_witness :
    jsTrim "pwd" = "pwd" ∧
    handleCommand demoSessions "mock-session-1" "pwd" =
      [{ sessionId := "mock-session-1", data := "/Users/developer/my-project" ++ "\n" },
       { sessionId := "mock-session-1", data := mockPrompt "/Users/developer/my-project" }] :=
  ⟨by decide,
    (mock_backend_commands demoSessions "mock-session-1" "pwd"
      { cwd := "/Users/developer/my-project", shell := "zsh" } (by decide)).1 (by decide)⟩

end TermPanel
